import Mathlib

/-!
Verification of the InsuranceFormFiller data-generation and form-filling engine.

Shallow embedding of the deterministic data generator (`src/data-generator.js`),
the widget-state resolver of the PDF form filler (`src/unnamed/part_000`,
functions `setMultiWidgetCheckboxValue`, `isYesNoCheckbox`, `fillForm`), and the
static mapping data (`src/field-mapping.js`).

Modelling conventions:
* JavaScript `Date` values are day numbers (integers); `setDate(getDate() - n)`
  is subtraction of `n` days.  `setFullYear(y - k)` and `setMonth(m - k)` keep
  the calendar day, so they subtract a year- resp. month-dependent number of
  days; the exact span is carried as a draw parameter, bounded by the calendar
  (between `365*k` and `366*k` days for `k` years, and between `28*k - 4` and
  `31*k` days for `k` months, the slack covering end-of-month clamping).
* Money is carried in integer cents.  The faker draws `number.float({min, max,
  fractionDigits: 2})` yield exact two-decimal values, so `wage = base + delta`
  and `Math.round(wage * 100) / 100` are exact in cents.
* Every faker draw of `generateBaseData` is a field of a `Draws` record; the
  ranges the faker calls guarantee are collected in `Draws.Valid`.  The
  generated dataset is a pure function of `(runId, seed, now, draws)`.
* JavaScript 32-bit integer coercion (`x & x`, `x << 5`) is modelled with
  explicit arithmetic modulo `2 ^ 32`.
-/

/-- JavaScript `ToInt32`: reduce an integer modulo `2^32` into
`[-2^31, 2^31)`.  This is what `hash & hash` performs in `hashString`. -/
def toInt32 (n : Int) : Int :=
  let m := n % 4294967296
  if m < 2147483648 then m else m - 4294967296

/-- One step of `DataGenerator.hashString`:
`hash = ((hash << 5) - hash) + char; hash = hash & hash`.
`hash << 5` coerces to 32 bits, the sum is exact in doubles, and the
final `& ` coerces to 32 bits again. -/
def hashStep (h : Int) (c : Nat) : Int :=
  toInt32 (toInt32 (h * 32) - h + c)

/-- Model of `DataGenerator.hashString` from `src/data-generator.js`: fold `hashStep`
over the UTF-16 code units (code points for the ASCII run ids used here)
and apply `Math.abs`. -/
def hashString (s : String) : Int :=
  ((s.data.foldl (fun h ch => hashStep h ch.toNat) 0).natAbs : Int)

/-- JavaScript `Math.round (num / den)` for `den > 0`:
round half toward positive infinity, i.e. `⌊num / den + 1 / 2⌋`,
computed as floor division `(2 * num + den) / (2 * den)`. -/
def jsRoundHalf (num den : Int) : Int :=
  Int.fdiv (2 * num + den) (2 * den)

/-- Gregorian civil date `(year, month, day)` of a day number
(days since 1970-01-01); used only to render `toLocaleDateString("en-US")`
style strings. -/
def civilFromDays (z0 : Int) : Int × Int × Int :=
  let z := z0 + 719468
  let era := Int.fdiv z 146097
  let doe := z - era * 146097
  let yoe := Int.fdiv (doe - Int.fdiv doe 1460 + Int.fdiv doe 36524 - Int.fdiv doe 146096) 365
  let y := yoe + era * 400
  let doy := doe - (365 * yoe + Int.fdiv yoe 4 - Int.fdiv yoe 100)
  let mp := Int.fdiv (5 * doy + 2) 153
  let d := doy - Int.fdiv (153 * mp + 2) 5 + 1
  let m := if mp < 10 then mp + 3 else mp - 9
  (if m ≤ 2 then y + 1 else y, m, d)

/-- Render month, day and year strings as `M/D/YYYY`. -/
def mdyDateString (m d y : String) : String :=
  m ++ "/" ++ d ++ "/" ++ y

/-- Rendering of `date.toLocaleDateString("en-US")` of a day number: `M/D/YYYY`. -/
def localeDateString (z : Int) : String :=
  mdyDateString (toString (civilFromDays z).2.1) (toString (civilFromDays z).2.2)
    (toString (civilFromDays z).1)

/-- A date range rendered as in `generateBaseData`:
`start.toLocaleDateString ++ " - " ++ end.toLocaleDateString`. -/
def rangeString (a b : Int) : String :=
  localeDateString a ++ " - " ++ localeDateString b

/-- The per-week faker draws of the wage loop in `generateBaseData`:
`daysWorked = faker.number.int({min 4, max 5})` and the wage delta
`faker.number.float({min -100, max 100, fractionDigits 2})` in cents. -/
structure WeekDraw where
  daysWorked : Nat
  deltaCents : Int
deriving DecidableEq

/-- The `checkboxStates` object of `generateBaseData`: one seeded boolean
draw per named fact. -/
structure CheckboxStates where
  gender : Bool
  didWorkOnDisabilityDay : Bool
  hasRecovered : Bool
  workedForWages : Bool
  unionMember : Bool
  receivingWages : Bool
  unemploymentBenefits : Bool
  paidFamilyLeave : Bool
  workersComp : Bool
  noFaultAccident : Bool
  thirdPartyInjury : Bool
  longTermDisability : Bool
  priorDisability : Bool
  priorPFL : Bool
  employerProvidedRights : Bool
  wagesContinued : Bool
  reimbursementRequested : Bool
  stillEmployed : Bool
  priorLeave : Bool
  directDeposit : Bool
  employeeContributes : Bool
  checkingAccount : Bool
  noEOBs : Bool
deriving DecidableEq

/-- All faker draws consumed by one run of `generateBaseData`, in the order
the source draws them.  The dataset is a pure function of these draws plus
`(runId, seed, now)`. -/
structure Draws where
  disabilityDaysBack : Int
  employmentYearsBack : Int
  employmentYearSpan : Int
  birthAgeDays : Int
  baseWeeklyWageCents : Int
  weekDraws : List WeekDraw
  disabilityIndex : Nat
  firstName : String
  lastName : String
  middleInitial : String
  claimantAddress : String
  claimantCity : String
  claimantZip : String
  claimantPhone : String
  claimantEmail : String
  occupation : String
  ssn1 : String
  ssn2 : String
  ssn3 : String
  employerName : String
  employerAddress : String
  employerCity : String
  employerZip : String
  employerPhone : String
  feinPart1 : String
  feinPart2 : String
  contactName : String
  contactTitle : String
  contactEmail : String
  policyNumber : String
  unionNumber : Int
  unionBuzz : String
  checkboxes : CheckboxStates
  priorBenefitMonthsBack : Int
  priorBenefitMonthSpan : Int
  priorBenefitLenDays : Int
  workedRecentDate : Int
  wagesContinuedPick : String
deriving DecidableEq

/-- One entry of `SampleDisabilityDescriptions` in `src/field-mapping.js`. -/
structure DisabilityDescription where
  line1 : String
  line2 : String
deriving DecidableEq

/-- The fixed 5-entry sample set `SampleDisabilityDescriptions` of
`src/field-mapping.js`. -/
def SampleDisabilityDescriptions : List DisabilityDescription :=
  [ { line1 := "Lower back strain with herniated disc L4-L5. Pain radiates down left leg.",
      line2 := "Occurred while lifting boxes at home on 12/15/2025. Currently unable to sit or stand for extended periods." },
    { line1 := "Right knee injury - torn meniscus requiring surgical repair.",
      line2 := "Slipped on ice in parking lot on 01/02/2026. Surgery scheduled, recovery expected 6-8 weeks." },
    { line1 := "Post-surgical recovery following appendectomy due to acute appendicitis.",
      line2 := "Emergency surgery performed on 12/28/2025. Restricted from lifting over 10 lbs during recovery." },
    { line1 := "Severe migraine disorder with visual aura and photophobia.",
      line2 := "Condition worsened significantly in early January 2026. Unable to work due to frequency and severity of episodes." },
    { line1 := "Fractured right wrist (distal radius) from fall.",
      line2 := "Fell on stairs at home on 01/05/2026. Cast applied, unable to perform job duties requiring manual dexterity." } ]

/-- One record of the 8-week wage ledger. -/
structure WeekRecord where
  weekNumber : Nat
  weekEndDate : Int
  daysWorked : Nat
  grossAmountCents : Int
deriving DecidableEq

/-- The `claimant` section of the dataset. -/
structure Claimant where
  firstName : String
  lastName : String
  middleInitial : String
  fullName : String
  address : String
  city : String
  state : String
  zip : String
  phone : String
  email : String
  ssn1 : String
  ssn2 : String
  ssn3 : String
  ssnFull : String
  dateOfBirth : Int
  occupation : String
deriving DecidableEq

/-- The `dates` section of the dataset. -/
structure DatesSection where
  disabilityStart : Int
  lastDayWorked : Int
  employmentStart : Int
  signatureDate : Int
deriving DecidableEq

/-- The `employer` section of the dataset. -/
structure Employer where
  name : String
  address : String
  city : String
  state : String
  zip : String
  phone : String
  feinPart1 : String
  feinPart2 : String
  contactName : String
  contactTitle : String
  contactEmail : String
  contactPhone : String
  policyNumber : String
deriving DecidableEq

/-- The `wages` section of the dataset. -/
structure Wages where
  weeklyWages : List WeekRecord
  averageWeeklyWageCents : Int
  baseWeeklyWageCents : Int
deriving DecidableEq

/-- The `priorBenefits` section (items 13, 14, 15): every field is gated by a
checkbox state.  Date-valued fields are `Option Int` (`none` is JS `null`). -/
structure PriorBenefits where
  claimedFrom : String
  claimedPeriodStart : Option Int
  claimedPeriodEnd : Option Int
  priorDisabilityPaidBy : String
  priorDisabilityStart : Option Int
  priorDisabilityEnd : Option Int
  priorPFLPaidBy : String
  priorPFLStart : Option Int
  priorPFLEnd : Option Int
deriving DecidableEq

/-- The `conditionalData` section: gated narrative and date-range fields. -/
structure ConditionalData where
  returnToWorkDate : Option Int
  workedForWagesDates : String
  unemploymentExplanation : String
  unemploymentPeriods : String
  wagesContinuedType : String
  priorDisabilityDates : String
  priorPFLDates : String
deriving DecidableEq

/-- The full dataset returned by `generateBaseData`. -/
structure Dataset where
  runId : String
  generatedAt : Int
  seed : Int
  claimant : Claimant
  dates : DatesSection
  employer : Employer
  wages : Wages
  union : Option String
  disability : DisabilityDescription
  priorBenefits : PriorBenefits
  conditionalData : ConditionalData
  checkboxes : CheckboxStates
deriving DecidableEq

/-- The wage loop of `generateBaseData`: for `i = 1..8`,
`weekEndDate = lastDayWorked - 7 * (i - 1)`, `grossAmount = base + delta`
(cents, exact by the two-decimal draws).  `idx` is `i - 1`. -/
def buildWeeklyWages (lastDayWorked baseCents : Int) : Nat → List WeekDraw → List WeekRecord
  | _, [] => []
  | idx, wd :: rest =>
      { weekNumber := idx + 1
        weekEndDate := lastDayWorked - 7 * (idx : Int)
        daysWorked := wd.daysWorked
        grossAmountCents := baseCents + wd.deltaCents } ::
        buildWeeklyWages lastDayWorked baseCents (idx + 1) rest

/-- The `claimant` object literal of `generateBaseData`. -/
def buildClaimant (dr : Draws) (dateOfBirth : Int) : Claimant :=
  { firstName := dr.firstName
    lastName := dr.lastName
    middleInitial := dr.middleInitial
    fullName := dr.firstName ++ " " ++ dr.middleInitial ++ ". " ++ dr.lastName
    address := dr.claimantAddress
    city := dr.claimantCity
    state := "NY"
    zip := dr.claimantZip
    phone := dr.claimantPhone
    email := dr.claimantEmail
    ssn1 := dr.ssn1
    ssn2 := dr.ssn2
    ssn3 := dr.ssn3
    ssnFull := dr.ssn1 ++ "-" ++ dr.ssn2 ++ "-" ++ dr.ssn3
    dateOfBirth := dateOfBirth
    occupation := dr.occupation }

/-- The `employer` object literal of `generateBaseData` (note `contactPhone`
reuses the same `employerPhone` draw as `phone`, as in the source). -/
def buildEmployer (dr : Draws) : Employer :=
  { name := dr.employerName
    address := dr.employerAddress
    city := dr.employerCity
    state := "NY"
    zip := dr.employerZip
    phone := dr.employerPhone
    feinPart1 := dr.feinPart1
    feinPart2 := dr.feinPart2
    contactName := dr.contactName
    contactTitle := dr.contactTitle
    contactEmail := dr.contactEmail
    contactPhone := dr.employerPhone
    policyNumber := dr.policyNumber }

/-- The `priorBenefits` object literal of `generateBaseData` (items 13, 14,
15): each field is present exactly when its gating checkbox draw is true. -/
def buildPriorBenefits (cb : CheckboxStates) (employerName : String)
    (priorBenefitStart priorBenefitEnd : Int) : PriorBenefits :=
  { claimedFrom := if cb.receivingWages then employerName else ""
    claimedPeriodStart := if cb.receivingWages then some priorBenefitStart else none
    claimedPeriodEnd := if cb.receivingWages then some priorBenefitEnd else none
    priorDisabilityPaidBy := if cb.priorDisability then "ShelterPoint Life" else ""
    priorDisabilityStart := if cb.priorDisability then some priorBenefitStart else none
    priorDisabilityEnd := if cb.priorDisability then some priorBenefitEnd else none
    priorPFLPaidBy := if cb.priorPFL then "ShelterPoint Life" else ""
    priorPFLStart := if cb.priorPFL then some priorBenefitStart else none
    priorPFLEnd := if cb.priorPFL then some priorBenefitEnd else none }

/-- The `conditionalData` object literal of `generateBaseData`.  Note the
source guards `unemploymentExplanation` by the NEGATION of the
`unemploymentBenefits` checkbox: the explanation text is filled exactly when
no unemployment benefits were claimed. -/
def buildConditionalData (cb : CheckboxStates) (now : Int) (dr : Draws)
    (priorBenefitStart priorBenefitEnd : Int) : ConditionalData :=
  { returnToWorkDate := if cb.hasRecovered then some now else none
    workedForWagesDates :=
      if cb.workedForWages then localeDateString dr.workedRecentDate else ""
    unemploymentExplanation :=
      if !cb.unemploymentBenefits then
        "Did not apply for unemployment benefits as disability began while employed."
      else ""
    unemploymentPeriods :=
      if cb.unemploymentBenefits then rangeString priorBenefitStart priorBenefitEnd else ""
    wagesContinuedType := if cb.wagesContinued then dr.wagesContinuedPick else ""
    priorDisabilityDates :=
      if cb.priorLeave then rangeString priorBenefitStart priorBenefitEnd else ""
    priorPFLDates :=
      if cb.priorPFL then rangeString priorBenefitStart priorBenefitEnd else "" }

/-- Model of `DataGenerator.generateBaseData` from `src/data-generator.js` as a pure
function of the run id, the seed, the generation day `now` and the faker
draws. -/
def generateBaseData (runId : String) (seed : Int) (now : Int) (dr : Draws) : Dataset :=
  let disabilityStartDate : Int := now - dr.disabilityDaysBack
  let lastDayWorked : Int := disabilityStartDate - 1
  let employmentStartDate : Int := lastDayWorked - dr.employmentYearSpan
  let dateOfBirth : Int := now - dr.birthAgeDays
  let weeklyWages := buildWeeklyWages lastDayWorked dr.baseWeeklyWageCents 0 dr.weekDraws
  let averageWeeklyWageCents : Int :=
    jsRoundHalf ((weeklyWages.map WeekRecord.grossAmountCents).sum) 8
  let dd := SampleDisabilityDescriptions.getD dr.disabilityIndex ⟨"", ""⟩
  let cb := dr.checkboxes
  let priorBenefitStart : Int := disabilityStartDate - dr.priorBenefitMonthSpan
  let priorBenefitEnd : Int := priorBenefitStart + dr.priorBenefitLenDays
  { runId := runId
    generatedAt := now
    seed := seed
    claimant := buildClaimant dr dateOfBirth
    dates := {
      disabilityStart := disabilityStartDate
      lastDayWorked := lastDayWorked
      employmentStart := employmentStartDate
      signatureDate := now }
    employer := buildEmployer dr
    wages := {
      weeklyWages := weeklyWages
      averageWeeklyWageCents := averageWeeklyWageCents
      baseWeeklyWageCents := dr.baseWeeklyWageCents }
    union := if cb.unionMember then
        some ("Local " ++ toString dr.unionNumber ++ " - " ++ dr.unionBuzz ++ " Workers Union")
      else none
    disability := dd
    priorBenefits := buildPriorBenefits cb dr.employerName priorBenefitStart priorBenefitEnd
    conditionalData := buildConditionalData cb now dr priorBenefitStart priorBenefitEnd
    checkboxes := cb }

/-- The ranges guaranteed by the faker calls of `generateBaseData`
(`number.int`/`number.float` bounds, `birthdate` age 25 to 60,
`arrayElement` membership, nonempty `company.name`), together with the
calendar bounds for the `setFullYear`/`setMonth` spans. -/
def Draws.Valid (dr : Draws) : Prop :=
  7 ≤ dr.disabilityDaysBack ∧ dr.disabilityDaysBack ≤ 21 ∧
  1 ≤ dr.employmentYearsBack ∧ dr.employmentYearsBack ≤ 10 ∧
  365 * dr.employmentYearsBack ≤ dr.employmentYearSpan ∧
  dr.employmentYearSpan ≤ 366 * dr.employmentYearsBack ∧
  25 * 365 ≤ dr.birthAgeDays ∧ dr.birthAgeDays ≤ 61 * 366 ∧
  80000 ≤ dr.baseWeeklyWageCents ∧ dr.baseWeeklyWageCents ≤ 250000 ∧
  dr.weekDraws.length = 8 ∧
  (∀ wd ∈ dr.weekDraws,
    4 ≤ wd.daysWorked ∧ wd.daysWorked ≤ 5 ∧ -10000 ≤ wd.deltaCents ∧ wd.deltaCents ≤ 10000) ∧
  dr.disabilityIndex < 5 ∧
  6 ≤ dr.priorBenefitMonthsBack ∧ dr.priorBenefitMonthsBack ≤ 10 ∧
  28 * dr.priorBenefitMonthsBack - 4 ≤ dr.priorBenefitMonthSpan ∧
  dr.priorBenefitMonthSpan ≤ 31 * dr.priorBenefitMonthsBack ∧
  14 ≤ dr.priorBenefitLenDays ∧ dr.priorBenefitLenDays ≤ 60 ∧
  dr.employerName ≠ "" ∧
  dr.wagesContinuedPick ∈ ["PTO", "Sick time", "Salary continuation"]

instance (dr : Draws) : Decidable dr.Valid := by
  unfold Draws.Valid
  infer_instance

/-- The dataset store of the `DataGenerator` constructor: if a dataset for
`runId` is persisted, load it verbatim; otherwise seed with
`hashString runId`, build, and persist.  The store is the association list
of persisted run files. -/
def getOrCreate (store : List (String × Dataset)) (runId : String) (now : Int)
    (dr : Draws) : List (String × Dataset) × Dataset :=
  match store.lookup runId with
  | some d => (store, d)
  | none =>
      let d := generateBaseData runId (hashString runId) now dr
      ((runId, d) :: store, d)

/-- One reported on-state of a checkbox field, as collected by
`getCheckboxOnValues` in the form filler: the widget index and the name of
its non-Off appearance state. -/
structure OnValue where
  widget : Nat
  value : String
deriving DecidableEq

/-- The discrete state of a checkbox field after filling: the field value
(`V` entry) and the appearance state (`AS` entry) of each widget, indexed by
widget position. -/
structure FilledCheckbox where
  fieldValue : String
  appearance : List String
deriving DecidableEq

/-- Model of `setMultiWidgetCheckboxValue` from the form filler: set the field value
to `targetValue`, and for each widget set its appearance state to
`targetValue` when its (first) reported on-value equals `targetValue`, and
to `Off` otherwise. -/
def setMultiWidgetCheckboxValue (numWidgets : Nat) (targetValue : String)
    (onValues : List OnValue) : FilledCheckbox :=
  { fieldValue := targetValue
    appearance := (List.range numWidgets).map fun i =>
      match onValues.find? (fun v => v.widget == i) with
      | some v => if v.value == targetValue then targetValue else "Off"
      | none => "Off" }

/-- Model of `isYesNoCheckbox` from the form filler: the reported on-values contain
both a `Yes` and a `No` state. -/
def isYesNoCheckbox (onValues : List OnValue) : Bool :=
  (onValues.any fun v => v.value == "Yes") && (onValues.any fun v => v.value == "No")

/-- The yes/no branch of `fillForm`: convert the logical boolean to the
target state `Yes`/`No` and apply it with `setMultiWidgetCheckboxValue`. -/
def fillYesNoCheckbox (numWidgets : Nat) (onValues : List OnValue) (value : Bool) :
    FilledCheckbox :=
  setMultiWidgetCheckboxValue numWidgets (if value then "Yes" else "No") onValues

/-- Result of one `getAIValue` call: the updated `aiContent` cache, the
returned text, and how many times the backend callback ran (0 or 1). -/
structure AIResult where
  aiContent : List (String × String)
  value : String
  backendCalls : Nat
deriving DecidableEq

/-- The JavaScript truthiness test `if (this.data.aiContent[category])`:
a cached entry counts only if present and a nonempty string. -/
def truthyLookup (aiContent : List (String × String)) (category : String) :
    Option String :=
  match aiContent.lookup category with
  | some s => if s = "" then none else some s
  | none => none

/-- Model of `DataGenerator.getAIValue`: with AI enabled and a callback present,
return the cached text when the truthiness test passes, otherwise invoke the
backend, cache and return its text; with AI disabled, fall back to the
pre-selected disability description lines by category, else empty. -/
def getAIValue (useAI : Bool) (aiCallback : Option (String → String → String))
    (disability : DisabilityDescription) (aiContent : List (String × String))
    (prompt category : String) : AIResult :=
  match useAI, aiCallback with
  | true, some cb =>
      match truthyLookup aiContent category with
      | some cached => ⟨aiContent, cached, 0⟩
      | none =>
          let content := cb prompt category
          ⟨(category, content) :: aiContent, content, 1⟩
  | _, _ =>
      if category = "disability_description" then ⟨aiContent, disability.line1, 0⟩
      else if category = "disability_description_continued" then ⟨aiContent, disability.line2, 0⟩
      else ⟨aiContent, "", 0⟩

/-- Model of `DataGenerator.getFakerValue`: re-seed the faker facade to the base seed
(`faker.seed(this.seed)`) and then draw via the named method.  The facade is
abstract: `seedFn` resets the stream, `evalMethod` resolves a method name
and arguments against a stream state (returning the drawn string and the
advanced state; unknown methods yield an empty string inside `evalMethod`).
The incoming stream state `fakerState` is overwritten by the re-seed,
exactly as in the source. -/
def getFakerValue {σ α : Type} (seedFn : Int → σ)
    (evalMethod : σ → String → List α → String × σ)
    (seed : Int) (fakerState : σ) (method : String) (args : List α) : String × σ :=
  let _ := fakerState
  evalMethod (seedFn seed) method args

/-- An entry of the `checkboxMap` table in `DataGenerator.getCheckboxValue`:
either the name of a stored checkbox state, a constant boolean, or the
closure `() => !this.data.checkboxes.checkingAccount` used for the savings
account box. -/
inductive CheckboxMapEntry
  | stateKey : String → CheckboxMapEntry
  | constBool : Bool → CheckboxMapEntry
  | negChecking : CheckboxMapEntry
deriving DecidableEq

/-- The `checkboxMap` literal of `DataGenerator.getCheckboxValue`, keyed by
the exact PDF field names. -/
def checkboxMap (fieldName : String) : Option CheckboxMapEntry :=
  match fieldName with
  | "17 - Gender" => some (.stateKey "gender")
  | "25 - Did you work that day?" => some (.stateKey "didWorkOnDisabilityDay")
  | "27 - Have you recovered from this disability?" => some (.stateKey "hasRecovered")
  | "32 - Have you since worked for wages or profit?" => some (.stateKey "workedForWages")
  | "73 - Union Member?" => some (.stateKey "unionMember")
  | "76 - Were you claiming or receiving unemployment prior to this disability?" =>
      some (.stateKey "unemploymentBenefits")
  | "2 - A.\tAre you receiving wages, salary or separation pay?" =>
      some (.stateKey "receivingWages")
  | "3 - Unemployment Benefits?" => some (.stateKey "unemploymentBenefits")
  | "4 - Paid Family Leave?" => some (.stateKey "paidFamilyLeave")
  | "5 - Workers Compensation?" => some (.stateKey "workersComp")
  | "6 - No fault motor vehicle accident?" => some (.stateKey "noFaultAccident")
  | "7 - personal injury involving third party?" => some (.stateKey "thirdPartyInjury")
  | "8 - Long-term disability benefits under the Federal Social Security Act for this disability?" =>
      some (.stateKey "longTermDisability")
  | "17 - have you received disability benefits for other periods of disability?" =>
      some (.stateKey "priorDisability")
  | "25 -  In the year (52 weeks) before your disability began, have you received Paid Family Leave?" =>
      some (.stateKey "priorPFL")
  | "11 - Is the employee a member of a union?" => some (.stateKey "unionMember")
  | "18 - Were wages continued during disability?" => some (.stateKey "wagesContinued")
  | "20 - If yes, is reimbursement requested by employer?" =>
      some (.stateKey "reimbursementRequested")
  | "21 - Is the employee\x27s disability work-related?" => some (.constBool false)
  | "47 - In the preceding 52 weeks has the employee taken leave for:" =>
      some (.stateKey "priorLeave")
  | "50 - Is employee still in your employment?" => some (.stateKey "stillEmployed")
  | "10 - Payment" => some (.stateKey "directDeposit")
  | "18 - Does employee contribute?" => some (.stateKey "employeeContributes")
  | "4 Checking account" => some (.stateKey "checkingAccount")
  | "4 Savings account" => some .negChecking
  | "EOBs" => some (.stateKey "noEOBs")
  | "14 - Employees Role" => some (.constBool true)
  | _ => none

/-- Lookup `this.data.checkboxes[key] || false`: resolve a state-key name against
the stored checkbox states; an unknown key yields `false`. -/
def lookupCheckboxState (cbs : CheckboxStates) (key : String) : Bool :=
  match key with
  | "gender" => cbs.gender
  | "didWorkOnDisabilityDay" => cbs.didWorkOnDisabilityDay
  | "hasRecovered" => cbs.hasRecovered
  | "workedForWages" => cbs.workedForWages
  | "unionMember" => cbs.unionMember
  | "receivingWages" => cbs.receivingWages
  | "unemploymentBenefits" => cbs.unemploymentBenefits
  | "paidFamilyLeave" => cbs.paidFamilyLeave
  | "workersComp" => cbs.workersComp
  | "noFaultAccident" => cbs.noFaultAccident
  | "thirdPartyInjury" => cbs.thirdPartyInjury
  | "longTermDisability" => cbs.longTermDisability
  | "priorDisability" => cbs.priorDisability
  | "priorPFL" => cbs.priorPFL
  | "employerProvidedRights" => cbs.employerProvidedRights
  | "wagesContinued" => cbs.wagesContinued
  | "reimbursementRequested" => cbs.reimbursementRequested
  | "stillEmployed" => cbs.stillEmployed
  | "priorLeave" => cbs.priorLeave
  | "directDeposit" => cbs.directDeposit
  | "employeeContributes" => cbs.employeeContributes
  | "checkingAccount" => cbs.checkingAccount
  | "noEOBs" => cbs.noEOBs
  | _ => false

/-- Model of `DataGenerator.getCheckboxValue`: mapped fields resolve against the
stored checkbox states (constants and the savings-account closure handled
as in the source); unmapped fields fall back to a seeded per-field draw at
the mapping probability, abstracted as `fallbackDraw`. -/
def getCheckboxValue (cbs : CheckboxStates) (fallbackDraw : String → ℚ → Bool)
    (fieldName : String) (probability : ℚ) : Bool :=
  match checkboxMap fieldName with
  | none => fallbackDraw fieldName probability
  | some (.constBool b) => b
  | some .negChecking => !cbs.checkingAccount
  | some (.stateKey key) => lookupCheckboxState cbs key

/-- Gating of the conditional fields as the code actually implements it:
every `priorBenefits`/`conditionalData` field is empty (resp. `null`) iff
its gating checkbox state is false — except `unemploymentExplanation`,
whose gate polarity is inverted: it is empty iff `unemploymentBenefits` is
TRUE. -/
def GatingAmendedOk (d : Dataset) : Prop :=
  (d.priorBenefits.claimedFrom = "" ↔ d.checkboxes.receivingWages = false) ∧
  (d.priorBenefits.claimedPeriodStart = none ↔ d.checkboxes.receivingWages = false) ∧
  (d.priorBenefits.claimedPeriodEnd = none ↔ d.checkboxes.receivingWages = false) ∧
  (d.priorBenefits.priorDisabilityPaidBy = "" ↔ d.checkboxes.priorDisability = false) ∧
  (d.priorBenefits.priorDisabilityStart = none ↔ d.checkboxes.priorDisability = false) ∧
  (d.priorBenefits.priorDisabilityEnd = none ↔ d.checkboxes.priorDisability = false) ∧
  (d.priorBenefits.priorPFLPaidBy = "" ↔ d.checkboxes.priorPFL = false) ∧
  (d.priorBenefits.priorPFLStart = none ↔ d.checkboxes.priorPFL = false) ∧
  (d.priorBenefits.priorPFLEnd = none ↔ d.checkboxes.priorPFL = false) ∧
  (d.conditionalData.returnToWorkDate = none ↔ d.checkboxes.hasRecovered = false) ∧
  (d.conditionalData.workedForWagesDates = "" ↔ d.checkboxes.workedForWages = false) ∧
  (d.conditionalData.unemploymentExplanation = "" ↔ d.checkboxes.unemploymentBenefits = true) ∧
  (d.conditionalData.unemploymentPeriods = "" ↔ d.checkboxes.unemploymentBenefits = false) ∧
  (d.conditionalData.wagesContinuedType = "" ↔ d.checkboxes.wagesContinued = false) ∧
  (d.conditionalData.priorDisabilityDates = "" ↔ d.checkboxes.priorLeave = false) ∧
  (d.conditionalData.priorPFLDates = "" ↔ d.checkboxes.priorPFL = false)

/-- The date invariants of a generated dataset: strict ordering
`dateOfBirth < employmentStart < lastDayWorked < disabilityStart ≤
signatureDate`, last day worked exactly one day before disability start,
disability start 7 to 21 days before the signature (= generation) date,
employment start 1 to 10 calendar years before the last day worked, and an
age of 25 to 60 years at generation time. -/
def DateOrderingOk (d : Dataset) : Prop :=
  d.claimant.dateOfBirth < d.dates.employmentStart ∧
  d.dates.employmentStart < d.dates.lastDayWorked ∧
  d.dates.lastDayWorked < d.dates.disabilityStart ∧
  d.dates.disabilityStart ≤ d.dates.signatureDate ∧
  d.dates.lastDayWorked = d.dates.disabilityStart - 1 ∧
  d.dates.signatureDate - 21 ≤ d.dates.disabilityStart ∧
  d.dates.disabilityStart ≤ d.dates.signatureDate - 7 ∧
  365 ≤ d.dates.lastDayWorked - d.dates.employmentStart ∧
  d.dates.lastDayWorked - d.dates.employmentStart ≤ 3660 ∧
  25 * 365 ≤ d.dates.signatureDate - d.claimant.dateOfBirth ∧
  d.dates.signatureDate - d.claimant.dateOfBirth ≤ 61 * 366

/-- Wage consistency of a dataset: the ledger has exactly 8 weeks and the
stored average is `Math.round` (half up) of the mean of the ledger gross
amounts, recomputed from the ledger itself. -/
def WageConsistencyOk (d : Dataset) : Prop :=
  d.wages.weeklyWages.length = 8 ∧
  d.wages.averageWeeklyWageCents =
    jsRoundHalf ((d.wages.weeklyWages.map WeekRecord.grossAmountCents).sum) 8

/-- After `setMultiWidgetCheckboxValue`, every widget whose reported
on-value differs from the selected target has appearance state `Off`. -/
def NonTargetWidgetsOff (numWidgets : Nat) (targetValue : String)
    (onValues : List OnValue) : Prop :=
  ∀ i v, i < numWidgets → onValues.find? (fun o => o.widget == i) = some v →
    v.value ≠ targetValue →
    (setMultiWidgetCheckboxValue numWidgets targetValue onValues).appearance[i]? =
      some "Off"

/-- At most one distinct non-Off appearance state is active on the filled
checkbox: any two active states coincide. -/
def AtMostOneOnState (r : FilledCheckbox) : Prop :=
  ∀ s₁ ∈ r.appearance, ∀ s₂ ∈ r.appearance, s₁ ≠ "Off" → s₂ ≠ "Off" → s₁ = s₂

/-- Behaviour of the yes/no branch of `fillForm` on a field: logical
`false` selects state `No` (field value `No`, each widget whose on-value is
`No` gets appearance `No`, every other widget `Off`) and `true`
symmetrically selects `Yes`; both target states occur among the reported
on-values. -/
def YesNoFillOk (numWidgets : Nat) (onValues : List OnValue) : Prop :=
  (fillYesNoCheckbox numWidgets onValues false).fieldValue = "No" ∧
  (fillYesNoCheckbox numWidgets onValues true).fieldValue = "Yes" ∧
  (∃ o ∈ onValues, o.value = "No") ∧
  (∃ o ∈ onValues, o.value = "Yes") ∧
  (∀ o ∈ onValues, o.widget < numWidgets →
    (fillYesNoCheckbox numWidgets onValues false).appearance[o.widget]? =
      some (if o.value = "No" then "No" else "Off")) ∧
  (∀ o ∈ onValues, o.widget < numWidgets →
    (fillYesNoCheckbox numWidgets onValues true).appearance[o.widget]? =
      some (if o.value = "Yes" then "Yes" else "Off"))

lemma mdyDateString_ne_empty (m d y : String) : mdyDateString m d y ≠ "" := by
  intro h
  have h2 := congrArg String.length h
  simp only [mdyDateString, String.length_append] at h2
  have h3 : ("/" : String).length = 1 := rfl
  have h4 : ("" : String).length = 0 := rfl
  omega

lemma localeDateString_ne_empty (z : Int) : localeDateString z ≠ "" :=
  mdyDateString_ne_empty _ _ _

lemma rangeString_ne_empty (a b : Int) : rangeString a b ≠ "" := by
  intro h
  have h2 := congrArg String.length h
  simp only [rangeString, String.length_append] at h2
  have h3 : (" - " : String).length = 3 := rfl
  have h4 : ("" : String).length = 0 := rfl
  omega

lemma if_val_empty_iff {s : String} (b : Bool) (hs : s ≠ "") :
    ((if b then s else "") = "" ↔ b = false) := by
  cases b <;> simp [hs]

lemma if_not_val_empty_iff {s : String} (b : Bool) (hs : s ≠ "") :
    ((if !b then s else "") = "" ↔ b = true) := by
  cases b <;> simp [hs]

lemma if_opt_none_iff {α : Type} (b : Bool) (x : α) :
    ((if b then some x else none) = none ↔ b = false) := by
  cases b <;> simp

lemma buildWeeklyWages_length (lastDayWorked baseCents : Int) :
    ∀ (idx : Nat) (l : List WeekDraw),
      (buildWeeklyWages lastDayWorked baseCents idx l).length = l.length := by
  intro idx l
  induction l generalizing idx with
  | nil => rfl
  | cons wd rest ih => simp [buildWeeklyWages, ih]

lemma find?_widget_of_nodup (ov : List OnValue) (o : OnValue) (ho : o ∈ ov)
    (hnd : (ov.map OnValue.widget).Nodup) :
    ov.find? (fun v => v.widget == o.widget) = some o := by
  induction ov with
  | nil => cases ho
  | cons a t ih =>
      simp only [List.map_cons, List.nodup_cons] at hnd
      rcases List.mem_cons.mp ho with rfl | hmem
      · simp [List.find?]
      · have hne : (a.widget == o.widget) = false := by
          refine beq_eq_false_iff_ne.mpr ?_
          intro hw
          exact hnd.1 (hw ▸ List.mem_map_of_mem OnValue.widget hmem)
        simp only [List.find?, hne]
        exact ih hmem hnd.2

lemma setMulti_appearance_get (numWidgets : Nat) (targetValue : String)
    (onValues : List OnValue) (i : Nat) (hi : i < numWidgets) :
    (setMultiWidgetCheckboxValue numWidgets targetValue onValues).appearance[i]? =
      some (match onValues.find? (fun v => v.widget == i) with
            | some v => if v.value == targetValue then targetValue else "Off"
            | none => "Off") := by
  unfold setMultiWidgetCheckboxValue
  rw [List.getElem?_map, List.getElem?_range hi]
  rfl

lemma setMulti_appearance_mem (numWidgets : Nat) (targetValue : String)
    (onValues : List OnValue) :
    ∀ s ∈ (setMultiWidgetCheckboxValue numWidgets targetValue onValues).appearance,
      s = targetValue ∨ s = "Off" := by
  intro s hs
  simp only [setMultiWidgetCheckboxValue, List.mem_map] at hs
  obtain ⟨i, -, heq⟩ := hs
  rw [← heq]
  cases hfind : onValues.find? (fun v => v.widget == i) with
  | none => right; rfl
  | some v =>
      by_cases hv : (v.value == targetValue) = true
      · left; simp [hv]
      · right; simp [hv]

/-- A fixed draw record inside all the faker ranges, used to instantiate the
universally quantified dataset theorems at a concrete input.  Its
`unemploymentBenefits` draw is false while the other gates are mixed. -/
def drW : Draws :=
  { disabilityDaysBack := 10
    employmentYearsBack := 3
    employmentYearSpan := 1096
    birthAgeDays := 12000
    baseWeeklyWageCents := 150000
    weekDraws := [⟨5, 1000⟩, ⟨4, -2500⟩, ⟨5, 0⟩, ⟨4, 9999⟩,
                  ⟨5, -10000⟩, ⟨4, 123⟩, ⟨5, 4567⟩, ⟨4, -99⟩]
    disabilityIndex := 2
    firstName := "Ada"
    lastName := "Lovelace"
    middleInitial := "B"
    claimantAddress := "1 Main St"
    claimantCity := "Albany"
    claimantZip := "12207"
    claimantPhone := "555-123-4567"
    claimantEmail := "ada@example.com"
    occupation := "Analyst"
    ssn1 := "123"
    ssn2 := "45"
    ssn3 := "6789"
    employerName := "Acme Corp"
    employerAddress := "2 Broad St"
    employerCity := "Buffalo"
    employerZip := "14201"
    employerPhone := "(555) 987-6543"
    feinPart1 := "12"
    feinPart2 := "3456789"
    contactName := "Grace Hopper"
    contactTitle := "HR Manager"
    contactEmail := "hr@acme.example"
    policyNumber := "AB12CD34"
    unionNumber := 42
    unionBuzz := "Steel"
    checkboxes := {
      gender := true
      didWorkOnDisabilityDay := false
      hasRecovered := false
      workedForWages := true
      unionMember := true
      receivingWages := true
      unemploymentBenefits := false
      paidFamilyLeave := false
      workersComp := false
      noFaultAccident := false
      thirdPartyInjury := false
      longTermDisability := false
      priorDisability := false
      priorPFL := true
      employerProvidedRights := true
      wagesContinued := true
      reimbursementRequested := false
      stillEmployed := true
      priorLeave := false
      directDeposit := true
      employeeContributes := true
      checkingAccount := true
      noEOBs := false }
    priorBenefitMonthsBack := 7
    priorBenefitMonthSpan := 210
    priorBenefitLenDays := 30
    workedRecentDate := 20000
    wagesContinuedPick := "PTO" }

/-- Concrete on-value list for the widget-exclusivity witness: a field with
a Yes widget and a No widget. -/
def ovX : List OnValue := [⟨0, "Yes"⟩, ⟨1, "No"⟩]

/-- Concrete on-value list for the yes/no-fill witness. -/
def ovW : List OnValue := [⟨0, "Yes"⟩, ⟨1, "No"⟩]

/-- A backend callback that always returns the empty string (the source
treats backend failure this way). -/
def emptyBackend : String → String → String := fun _ _ => ""

/-- A backend callback that returns a fixed nonempty text. -/
def textBackend : String → String → String := fun _ _ => "Persistent lower back pain."

/-- C1 (amended): in every dataset produced by `generateBaseData`, each
conditional narrative/date field of `priorBenefits`/`conditionalData` is
empty (or null) if and only if its gating boolean in the checkbox states is
false — for every gated pair except `unemploymentExplanation`, whose gate
polarity the code inverts: that field is empty iff `unemploymentBenefits`
is TRUE. -/
theorem gating_amended (runId : String) (seed now : Int) (dr : Draws)
    (hv : dr.Valid) : GatingAmendedOk (generateBaseData runId seed now dr) := by
  obtain ⟨-, -, -, -, -, -, -, -, -, -, -, -, -, -, -, -, -, -, -, hemp, hpick⟩ := hv
  have hpick2 : dr.wagesContinuedPick ≠ "" := by
    simp only [List.mem_cons, List.not_mem_nil, or_false] at hpick
    rcases hpick with h | h | h <;> simp [h]
  have hsp : ("ShelterPoint Life" : String) ≠ "" := by decide
  exact ⟨if_val_empty_iff _ hemp, if_opt_none_iff _ _, if_opt_none_iff _ _,
    if_val_empty_iff _ hsp, if_opt_none_iff _ _, if_opt_none_iff _ _,
    if_val_empty_iff _ hsp, if_opt_none_iff _ _, if_opt_none_iff _ _,
    if_opt_none_iff _ _, if_val_empty_iff _ (localeDateString_ne_empty _),
    if_not_val_empty_iff _ (by decide), if_val_empty_iff _ (rangeString_ne_empty _ _),
    if_val_empty_iff _ hpick2, if_val_empty_iff _ (rangeString_ne_empty _ _),
    if_val_empty_iff _ (rangeString_ne_empty _ _)⟩

/-- Witness for C1 (amended), at the concrete draw record `drW`. -/
theorem gating_amended_witness :
    drW.Valid ∧ GatingAmendedOk (generateBaseData "claim-001" 0 0 drW) :=
  ⟨by decide, gating_amended "claim-001" 0 0 drW (by decide)⟩

/-- Counterexample to C1 as stated: at the in-range draw record `drW` the
gate `unemploymentBenefits` is false, yet `unemploymentExplanation` is a
nonempty fixed text, so the claimed biconditional (empty iff gate false)
fails for that pair. -/
theorem gating_counterexample :
    drW.Valid ∧
    (generateBaseData "claim-001" 0 0 drW).checkboxes.unemploymentBenefits = false ∧
    ¬ ((generateBaseData "claim-001" 0 0 drW).conditionalData.unemploymentExplanation = "" ↔
       (generateBaseData "claim-001" 0 0 drW).checkboxes.unemploymentBenefits = false) := by
  decide

/-- C2: for a fixed run id, the seed is `hashString runId` (a pure function
of the run id), and after a first build, a second independent build over the
same persisted store — even with a different generation time and different
faker draws, as in a separate process invocation — returns the identical
dataset. -/
theorem dataset_determinism (store : List (String × Dataset)) (runId : String)
    (now1 : Int) (dr1 : Draws) (now2 : Int) (dr2 : Draws) :
    (getOrCreate (getOrCreate store runId now1 dr1).1 runId now2 dr2).2 =
      (getOrCreate store runId now1 dr1).2 ∧
    (store.lookup runId = none →
      (getOrCreate store runId now1 dr1).2.seed = hashString runId) := by
  cases h : store.lookup runId with
  | some d =>
      refine ⟨?_, ?_⟩
      · simp [getOrCreate, h]
      · intro hc; cases hc
  | none =>
      refine ⟨?_, ?_⟩
      · simp [getOrCreate, h, List.lookup]
      · intro _
        simp only [getOrCreate, h]
        rfl

/-- Witness for C2: an empty store, run id `claim-001`, and two builds at
different generation times. -/
theorem dataset_determinism_witness :
    ([] : List (String × Dataset)).lookup "claim-001" = none ∧
    (getOrCreate [] "claim-001" 0 drW).2.seed = hashString "claim-001" ∧
    (getOrCreate (getOrCreate [] "claim-001" 0 drW).1 "claim-001" 5 drW).2 =
      (getOrCreate [] "claim-001" 0 drW).2 := by
  have h := dataset_determinism [] "claim-001" 0 drW 5 drW
  exact ⟨rfl, h.2 rfl, h.1⟩

/-- C4: in every generated dataset the wage ledger has exactly 8 weeks and
`averageWeeklyWage` equals the arithmetic mean of the 8 weekly gross
amounts rounded to cents (JavaScript `Math.round`), recomputed from the
ledger itself. -/
theorem wage_consistency (runId : String) (seed now : Int) (dr : Draws)
    (hv : dr.Valid) : WageConsistencyOk (generateBaseData runId seed now dr) := by
  obtain ⟨-, -, -, -, -, -, -, -, -, -, hlen, -⟩ := hv
  refine ⟨?_, rfl⟩
  show (buildWeeklyWages _ _ 0 dr.weekDraws).length = 8
  rw [buildWeeklyWages_length]
  exact hlen

/-- Witness for C4 at the concrete draw record `drW`. -/
theorem wage_consistency_witness :
    drW.Valid ∧ WageConsistencyOk (generateBaseData "claim-001" 0 0 drW) :=
  ⟨by decide, wage_consistency "claim-001" 0 0 drW (by decide)⟩

/-- C8: every generated dataset satisfies the strict ordering
`dateOfBirth < employmentStart < lastDayWorked < disabilityStart ≤
signatureDate`, with `lastDayWorked = disabilityStart - 1`, disability
start 7 to 21 days before generation time, employment start 1 to 10
calendar years before the last day worked, and an age of 25 to 60 years. -/
theorem date_ordering (runId : String) (seed now : Int) (dr : Draws)
    (hv : dr.Valid) : DateOrderingOk (generateBaseData runId seed now dr) := by
  obtain ⟨h1, h2, h3, h4, h5, h6, h7, h8, -, -, -, -, -, -, -, -, -, -, -, -, -⟩ := hv
  unfold DateOrderingOk generateBaseData buildClaimant
  dsimp only
  omega

/-- Witness for C8 at the concrete draw record `drW`. -/
theorem date_ordering_witness :
    drW.Valid ∧ DateOrderingOk (generateBaseData "claim-001" 0 0 drW) :=
  ⟨by decide, date_ordering "claim-001" 0 0 drW (by decide)⟩

/-- C5: after `setMultiWidgetCheckboxValue` applies any discrete-state
selection, every widget whose reported on-value differs from the selected
target has its appearance state set to `Off`, and at most one on-state is
ever active among the appearance states — never two distinct ones
simultaneously. -/
theorem widget_exclusivity (numWidgets : Nat) (targetValue : String)
    (onValues : List OnValue) :
    NonTargetWidgetsOff numWidgets targetValue onValues ∧
    AtMostOneOnState (setMultiWidgetCheckboxValue numWidgets targetValue onValues) := by
  constructor
  · intro i v hi hfind hne
    rw [setMulti_appearance_get numWidgets targetValue onValues i hi, hfind]
    have hb : (v.value == targetValue) = false := beq_eq_false_iff_ne.mpr hne
    simp [hb]
  · intro s1 hs1 s2 hs2 h1 h2
    rcases setMulti_appearance_mem numWidgets targetValue onValues s1 hs1 with h | h
    · rcases setMulti_appearance_mem numWidgets targetValue onValues s2 hs2 with g | g
      · rw [h, g]
      · exact absurd g h2
    · exact absurd h h1

/-- Witness for C5: a two-widget Yes/No field with target `Yes`; the
theorem yields mutual exclusivity and that the non-target `No` widget is
set to `Off`. -/
theorem widget_exclusivity_witness :
    AtMostOneOnState (setMultiWidgetCheckboxValue 2 "Yes" ovX) ∧
    (setMultiWidgetCheckboxValue 2 "Yes" ovX).appearance[1]? = some "Off" :=
  ⟨(widget_exclusivity 2 "Yes" ovX).2,
   (widget_exclusivity 2 "Yes" ovX).1 1 ⟨1, "No"⟩ (by decide) (by decide) (by decide)⟩

/-- C6: on a checkbox field whose reported on-states include both `Yes` and
`No` (one on-state per widget), the `fillForm` yes/no branch applied to
logical `false` sets the field value to `No`, sets each widget whose
on-value is `No` to appearance `No`, and sets every other widget to `Off`
(deactivating `Yes`); applying `true` symmetrically selects `Yes`. -/
theorem yesno_fill (numWidgets : Nat) (onValues : List OnValue)
    (hyn : isYesNoCheckbox onValues = true)
    (hnd : (onValues.map OnValue.widget).Nodup) :
    YesNoFillOk numWidgets onValues := by
  have hsplit := Bool.and_eq_true_iff.mp hyn
  obtain ⟨oy, hoy, hvy⟩ := List.any_eq_true.mp hsplit.1
  obtain ⟨onv, honv, hvn⟩ := List.any_eq_true.mp hsplit.2
  refine ⟨rfl, rfl, ⟨onv, honv, eq_of_beq hvn⟩, ⟨oy, hoy, eq_of_beq hvy⟩, ?_, ?_⟩
  · intro o ho hw
    have h := setMulti_appearance_get numWidgets "No" onValues o.widget hw
    rw [find?_widget_of_nodup onValues o ho hnd] at h
    by_cases hv : o.value = "No"
    · simpa [hv] using h
    · have hb : (o.value == "No") = false := beq_eq_false_iff_ne.mpr hv
      simpa [hv, hb] using h
  · intro o ho hw
    have h := setMulti_appearance_get numWidgets "Yes" onValues o.widget hw
    rw [find?_widget_of_nodup onValues o ho hnd] at h
    by_cases hv : o.value = "Yes"
    · simpa [hv] using h
    · have hb : (o.value == "Yes") = false := beq_eq_false_iff_ne.mpr hv
      simpa [hv, hb] using h

/-- Witness for C6: the two-widget field with on-values `Yes` and `No`. -/
theorem yesno_fill_witness :
    isYesNoCheckbox ovW = true ∧ (ovW.map OnValue.widget).Nodup ∧ YesNoFillOk 2 ovW :=
  ⟨by decide, by decide, yesno_fill 2 ovW (by decide) (by decide)⟩

/-- C7 (amended): with AI enabled and a backend present, if the backend
returns a NONEMPTY string for the requested category, then two `getAIValue`
calls with the same category in the same run invoke the backend at most
once, and the second call returns the identical string as the first.  (The
truthiness cache test makes the nonemptiness assumption necessary.) -/
theorem ai_cache_amended (cb : String → String → String)
    (dis : DisabilityDescription) (aiContent : List (String × String))
    (prompt category : String) (hne : cb prompt category ≠ "") :
    ((getAIValue true (some cb) dis
        (getAIValue true (some cb) dis aiContent prompt category).aiContent
        prompt category).value =
      (getAIValue true (some cb) dis aiContent prompt category).value) ∧
    (getAIValue true (some cb) dis aiContent prompt category).backendCalls +
      (getAIValue true (some cb) dis
        (getAIValue true (some cb) dis aiContent prompt category).aiContent
        prompt category).backendCalls ≤ 1 := by
  cases h : truthyLookup aiContent category with
  | some s =>
      constructor
      · simp [getAIValue, h]
      · simp [getAIValue, h]
  | none =>
      have h2 : truthyLookup ((category, cb prompt category) :: aiContent) category =
          some (cb prompt category) := by
        simp [truthyLookup, List.lookup, hne]
      constructor
      · simp [getAIValue, h, h2]
      · simp [getAIValue, h, h2]

/-- Witness for C7 (amended): a backend returning a fixed nonempty text. -/
theorem ai_cache_amended_witness :
    textBackend "p" "c" ≠ "" ∧
    ((getAIValue true (some textBackend) ⟨"d1", "d2"⟩
        (getAIValue true (some textBackend) ⟨"d1", "d2"⟩ [] "p" "c").aiContent
        "p" "c").value =
      (getAIValue true (some textBackend) ⟨"d1", "d2"⟩ [] "p" "c").value) ∧
    (getAIValue true (some textBackend) ⟨"d1", "d2"⟩ [] "p" "c").backendCalls +
      (getAIValue true (some textBackend) ⟨"d1", "d2"⟩
        (getAIValue true (some textBackend) ⟨"d1", "d2"⟩ [] "p" "c").aiContent
        "p" "c").backendCalls ≤ 1 := by
  have h := ai_cache_amended textBackend ⟨"d1", "d2"⟩ [] "p" "c" (by decide)
  exact ⟨by decide, h.1, h.2⟩

/-- Counterexample to C7 as stated: with a backend that returns the empty
string, the first call stores `""`, the truthiness cache test fails on the
second call, and the backend runs again — two invocations for the same
category in one run, so the at-most-once claim is false. -/
theorem ai_cache_counterexample :
    (getAIValue true (some emptyBackend) ⟨"d1", "d2"⟩ [] "p"
        "disability_description").backendCalls = 1 ∧
    (getAIValue true (some emptyBackend) ⟨"d1", "d2"⟩
        (getAIValue true (some emptyBackend) ⟨"d1", "d2"⟩ [] "p"
          "disability_description").aiContent
        "p" "disability_description").backendCalls = 1 ∧
    ¬ ((1 : Nat) + 1 ≤ 1) := by
  decide

/-- C9: `getFakerValue` re-seeds the facade to the base seed immediately
before every draw, so its result does not depend on the incoming stream
state — it is a pure function of (seed, method, arguments) — and resolving
the same method and arguments twice in sequence in one run yields the
identical value. -/
theorem faker_reseed_pure (σ α : Type) (seedFn : Int → σ)
    (evalMethod : σ → String → List α → String × σ) (seed : Int)
    (s1 s2 : σ) (method : String) (args : List α) :
    (getFakerValue seedFn evalMethod seed s1 method args).1 =
      (getFakerValue seedFn evalMethod seed s2 method args).1 ∧
    (getFakerValue seedFn evalMethod seed
        (getFakerValue seedFn evalMethod seed s1 method args).2 method args).1 =
      (getFakerValue seedFn evalMethod seed s1 method args).1 :=
  ⟨rfl, rfl⟩

/-- C10: `getCheckboxValue` resolves the checking-account box to the stored
`checkingAccount` state and the savings-account box to its negation — for
any fallback draw and any declared probabilities (the catalog declares 0.8
and 0.2, which are ignored for mapped fields) — so exactly one of the two
direct-deposit boxes is checked. -/
theorem direct_deposit_exclusive (cbs : CheckboxStates)
    (fallbackDraw : String → ℚ → Bool) (p1 p2 : ℚ) :
    getCheckboxValue cbs fallbackDraw "4 Savings account" p2 =
      !(getCheckboxValue cbs fallbackDraw "4 Checking account" p1) ∧
    getCheckboxValue cbs fallbackDraw "4 Checking account" p1 = cbs.checkingAccount ∧
    ((getCheckboxValue cbs fallbackDraw "4 Checking account" p1 = true ∧
      getCheckboxValue cbs fallbackDraw "4 Savings account" p2 = false) ∨
     (getCheckboxValue cbs fallbackDraw "4 Checking account" p1 = false ∧
      getCheckboxValue cbs fallbackDraw "4 Savings account" p2 = true)) := by
  have hc : getCheckboxValue cbs fallbackDraw "4 Checking account" p1 =
      cbs.checkingAccount := rfl
  have hs : getCheckboxValue cbs fallbackDraw "4 Savings account" p2 =
      !cbs.checkingAccount := rfl
  rw [hc, hs]
  cases cbs.checkingAccount <;> simp
